import Mathlib

/-!
# dena-a/inappbilling: the cafebazaar client

A shallow embedding of `providers/cafebazaar/cafebazaar.go` and of
`inappbillingerror/inappbillingerror.go`.

* Go `error` values are `Option GoError` (`none` is `nil`).
* `[]byte` is `List UInt8`; `int64` is `Int`, wrapped by `wrap64` after
  every arithmetic operation.
* What the network, the clock and the file system answer is an input of
  each function; what a function asks of them is recorded in a list of
  `Effect`s.
* The mutex of `Client` is not modelled: every function runs alone.
-/

namespace Inappbilling

/-! ## Errors -/

/-- Go error values of the two dynamic types the package produces:
`errors.New(s)` and `&InAppBillingError{s}`. -/
inductive GoError where
  | errorsNew (s : String)
  | inAppBillingError (s : String)
  deriving DecidableEq, Repr

/-- Method `InAppBillingError.Error`, and `Error` of an `errors.New` value. -/
def GoError.Error : GoError → String
  | .errorsNew s => s
  | .inAppBillingError s => s

/-- The package variable `inappbillingerror.ErrTransactionNotFound`, made by
`new` of the error package: a pointer to `InAppBillingError`. -/
def ErrTransactionNotFound : GoError := .inAppBillingError "Transaction Not Found"

/-! ## Bytes, and the Go library calls of `requestTo` -/

abbrev Byte := UInt8

/-- The bytes of a Go string literal (UTF-8). -/
def bytesOf (s : String) : List Byte := s.toUTF8.data.toList

/-- The character class `\s` of the Go package `regexp/syntax`:
`[\t\n\f\r ]`. -/
def whitespace : RegularExpression Byte :=
  .char 9 + .char 10 + .char 12 + .char 13 + .char 32

/-- The pattern `"{\\s+}"` as the Go package `regexp` reads it: neither brace opens a
repetition, so both are literals, with one or more `\s` between them. -/
def emptyPattern : RegularExpression Byte :=
  .char 123 * (whitespace * .star whitespace) * .char 125

/-- Library call `regexp.Match(pattern, b)`: some segment of `b` matches the pattern
(the search is not anchored). -/
def regexpMatch (re : RegularExpression Byte) (b : List Byte) : Bool :=
  b.tails.any fun t => t.inits.any fun p => re.rmatch p

/-- Library call `json.Unmarshal(data, v)`, for `v` either `nil` or a pointer to a value
of type `α`. With `v == nil` the call fails and writes nothing
(`InvalidUnmarshalError`, or a syntax error found before it). With a
pointer, `dec data old` is the value the pointer holds afterwards and
whether an error was returned. -/
def jsonUnmarshal {α : Type} (dec : List Byte → α → α × Bool) (data : List Byte) :
    Option α → Option α × Bool
  | none => (none, true)
  | some old => (some (dec data old).1, (dec data old).2)

/-! ## Endpoint -/

/-- Modelled from the spec: the `Endpoint` type and its builder functions
(`NewEndpoint`, `setOption`, `setAccessToken`) are declared in a file of the
package that is not among the sources; an endpoint is a route name, the
query parameters in the order they were attached, and an optional access
token. `requestTo` reads the field `Route`. -/
structure Endpoint where
  Route : String
  options : List (String × String)
  accessToken : Option String
  deriving DecidableEq, Repr

/-- Modelled from the spec: `NewEndpoint(route)` starts an endpoint for the
named route, with nothing attached. -/
def NewEndpoint (route : String) : Endpoint :=
  { Route := route, options := [], accessToken := none }

/-- Modelled from the spec: `setOption(key, value)` attaches one more query
parameter, after the ones already there. -/
def Endpoint.setOption (e : Endpoint) (key value : String) : Endpoint :=
  { e with options := e.options ++ [(key, value)] }

/-- Modelled from the spec: `setAccessToken(token)` attaches the bearer
token. -/
def Endpoint.setAccessToken (e : Endpoint) (tok : String) : Endpoint :=
  { e with accessToken := some tok }

/-! ## Data model -/

structure configuration where
  RefreshToken : String
  AccessToken : String
  ClientId : String
  ClientSecret : String
  ExpiresAt : Int
  deriving DecidableEq, Repr

structure token where
  AccessToken : String
  TokenType : String
  ExpiresIn : Int
  Scope : String
  RefreshToken : String
  deriving DecidableEq, Repr

structure Client where
  config : configuration
  deriving DecidableEq, Repr

structure Purchase where
  ConsumptionState : Int
  PurchaseState : Int
  Kind : String
  DeveloperPayload : String
  PurchaseTime : Int
  deriving DecidableEq, Repr

structure Subscription where
  Kind : String
  InitiationTimestampMsec : Int
  ValidUntilTimestampMsec : Int
  AutoRenewing : Bool
  deriving DecidableEq, Repr

/-- The zero value of `token`. -/
def token.zero : token :=
  { AccessToken := "", TokenType := "", ExpiresIn := 0, Scope := "", RefreshToken := "" }

/-- The zero value of `Purchase`. -/
def Purchase.zero : Purchase :=
  { ConsumptionState := 0, PurchaseState := 0, Kind := "", DeveloperPayload := "",
    PurchaseTime := 0 }

/-- The zero value of `Subscription`. -/
def Subscription.zero : Subscription :=
  { Kind := "", InitiationTimestampMsec := 0, ValidUntilTimestampMsec := 0,
    AutoRenewing := false }

/-- Wrap-around of `int64` arithmetic (two-complement). -/
def wrap64 (x : Int) : Int := (x + 2 ^ 63) % 2 ^ 64 - 2 ^ 63

/-! ## The outside world -/

/-- An HTTP response as the client reads it: the status code and what
reading the body to its end gives (`none`: the read fails). -/
structure Response where
  StatusCode : Int
  Body : Option (List Byte)
  deriving DecidableEq, Repr

/-- What `client.Do(req)` returns: an error or a response. -/
inductive Transport where
  | failed
  | response (resp : Response)
  deriving DecidableEq, Repr

/-- What one call of `RefreshToken` meets: whether `http.NewRequest` accepts
the request, what `client.Do` returns, the value the JSON decoder leaves in
the zero-initialised `token` (its error is discarded by the code), and the
clock reading `time.Now().Unix()` taken when the expiry is computed. -/
structure AuthWorld where
  newRequestFails : Bool
  transport : Transport
  decodeToken : Option (List Byte) → token → token
  now : Int

/-- What the code asks of the outside world. -/
inductive Effect where
  | authPost (form : List (String × String))
  | writeFile (path : String) (config : configuration)
  deriving DecidableEq, Repr

/-- The result of a client operation: the client afterwards, the error returned
and the effects performed, in order. -/
structure Outcome where
  client : Client
  err : Option GoError
  effects : List Effect
  deriving DecidableEq, Repr

/-! ## Token manager -/

/-- Method `Client.RefreshToken`. The credentials are written only on the
last path, after every check has passed. -/
def Client.RefreshToken (c : Client) (w : AuthWorld) : Outcome :=
  let form : List (String × String) :=
    [("grant_type", "refresh_token"),
     ("client_id", c.config.ClientId),
     ("client_secret", c.config.ClientSecret),
     ("refresh_token", c.config.RefreshToken)]
  if w.newRequestFails then
    ⟨c, some (.errorsNew "CannotInitiateRequest"), []⟩
  else
    match w.transport with
    | .failed => ⟨c, some (.errorsNew "CannotSendRequest"), [.authPost form]⟩
    | .response resp =>
      if resp.StatusCode ≠ 200 then
        ⟨c, some (.errorsNew "InvalidCredentials"), [.authPost form]⟩
      else
        let tok := w.decodeToken resp.Body token.zero
        if tok.AccessToken = "" then
          ⟨c, some (.errorsNew "CannotGetAccessToken"), [.authPost form]⟩
        else
          let config := { c.config with AccessToken := tok.AccessToken }
          let config := { config with ExpiresAt := wrap64 (wrap64 (tok.ExpiresIn + w.now) - 10) }
          ⟨{ c with config := config }, none, [.authPost form]⟩

/-- Function `NewClient`. -/
def NewClient (clientId clientSecret refreshToken : String) (w : AuthWorld) : Outcome :=
  let c : Client :=
    { config := { ClientId := clientId, ClientSecret := clientSecret,
                  RefreshToken := refreshToken, AccessToken := "", ExpiresAt := 0 } }
  c.RefreshToken w

/-- Function `NewClientFromFile`. `loaded` is the package-level `config` after
`jsonconfig.Load(path, config)` (which ends the process instead of
returning when the file cannot be read or parsed), `now` the clock reading
of the expiry test, `w` what the refresh meets and `writeErr` what
`ioutil.WriteFile` returns. -/
def NewClientFromFile (path : String) (loaded : configuration) (now : Int)
    (w : AuthWorld) (writeErr : Option GoError) : Outcome :=
  let c : Client := { config := loaded }
  if c.config.ExpiresAt > now then
    ⟨c, none, []⟩
  else
    let r := c.RefreshToken w
    -- err = c.RefreshToken()
    let c := r.client
    -- err = ioutil.WriteFile(path, configJson, 0644)
    ⟨c, writeErr, r.effects ++ [.writeFile path c.config]⟩

/-! ## Request executor -/

/-- Method `Client.requestTo`: the output pointer afterwards and the error.
`dec` is what `json.Unmarshal` does with a pointer of the output type and
`net` what `client.Do` returns for the request to the endpoint. -/
def requestTo {α : Type} (dec : List Byte → α → α × Bool) (endpoint : Endpoint)
    (output : Option α) (net : Transport) : Option α × Option GoError :=
  match net with
  | .failed => (output, some (.errorsNew "CannotSendRequest"))
  | .response resp =>
    if resp.StatusCode ≠ 200 then
      if resp.StatusCode = 404 then
        (output, some ErrTransactionNotFound)
      else
        (output, some (.errorsNew "CannotGetData"))
    else
      match resp.Body with
      | none => (output, some (.errorsNew "CannotReadBody"))
      | some body =>
        if body = bytesOf "Access token has been expired" then
          (output, some (.errorsNew "AccessTokenExpired"))
        else if endpoint.Route = "cancelSubscription" ∧ body = bytesOf "" then
          (output, none)
        else if regexpMatch emptyPattern body then
          (output, some (.errorsNew "CannotFindResource"))
        else
          let r := jsonUnmarshal dec body output
          if r.2 then
            (r.1, some (.errorsNew "Cannot parse JSON response"))
          else
            (r.1, none)

/-- Method `Client.PurchaseValidate`. -/
def Client.PurchaseValidate (c : Client) (dec : List Byte → Purchase → Purchase × Bool)
    (packageName productId purchaseToken : String) (net : Transport) :
    Purchase × Option GoError :=
  let endpoint := NewEndpoint "validatePurchase"
  let endpoint := endpoint.setOption "packageName" packageName
  let endpoint := endpoint.setOption "productId" productId
  let endpoint := endpoint.setOption "purchaseToken" purchaseToken
  let endpoint := endpoint.setAccessToken c.config.AccessToken
  let r := requestTo dec endpoint (some Purchase.zero) net
  (r.1.getD Purchase.zero, r.2)

/-- Method `Client.SubscriptionGet`. -/
def Client.SubscriptionGet (c : Client)
    (dec : List Byte → Subscription → Subscription × Bool)
    (packageName subscriptionId purchaseToken : String) (net : Transport) :
    Subscription × Option GoError :=
  let endpoint := NewEndpoint "getSubscriptionStatus"
  let endpoint := endpoint.setOption "packageName" packageName
  let endpoint := endpoint.setOption "subscriptionId" subscriptionId
  let endpoint := endpoint.setOption "purchaseToken" purchaseToken
  let endpoint := endpoint.setAccessToken c.config.AccessToken
  let r := requestTo dec endpoint (some Subscription.zero) net
  (r.1.getD Subscription.zero, r.2)

/-- Method `Client.SubscriptionCancel`: `requestTo` with a `nil` output. -/
def Client.SubscriptionCancel (c : Client)
    (packageName subscriptionId purchaseToken : String) (net : Transport) :
    Option GoError :=
  let endpoint := NewEndpoint "cancelSubscription"
  let endpoint := endpoint.setOption "packageName" packageName
  let endpoint := endpoint.setOption "subscriptionId" subscriptionId
  let endpoint := endpoint.setOption "purchaseToken" purchaseToken
  let endpoint := endpoint.setAccessToken c.config.AccessToken
  (requestTo (fun (_ : List Byte) (u : Unit) => (u, true)) endpoint (none : Option Unit) net).2

/-! ## Words of the specification -/

/-- A whitespace byte: tab, line feed, form feed, carriage return or space
(the four JSON whitespace bytes and the form feed, which is what `\s`
accepts). -/
def isSpace (b : Byte) : Bool := b = 9 || b = 10 || b = 12 || b = 13 || b = 32

/-- An empty JSON object in the words of the specification: `{`, then zero or
more whitespace bytes, then `}`, and nothing else. -/
def isEmptyObject (body : List Byte) : Bool :=
  match body with
  | [] => false
  | b :: rest => b = 123 && rest.getLast? = some 125 && rest.dropLast.all isSpace

/-! ## Sample inputs -/

/-- A decoder that accepts its input and writes nothing, as `json.Unmarshal`
does on `{}` with a pointer to a struct. -/
def acceptDec {α : Type} (_ : List Byte) (old : α) : α × Bool := (old, false)

/-- A decoder that rejects every input. -/
def rejectDec {α : Type} (_ : List Byte) (old : α) : α × Bool := (old, true)

/-- The body `{"developerPayload":"{ }"}`. -/
def payloadBody : List Byte := bytesOf "\x7b\"developerPayload\":\"\x7b \x7d\"\x7d"

/-- Credentials stored without an access token and with an expiry of 2000. -/
def tokenlessConfig : configuration :=
  { RefreshToken := "r", AccessToken := "", ClientId := "id", ClientSecret := "secret",
    ExpiresAt := 2000 }

/-- Credentials stored with an access token that expired at 500. -/
def expiredConfig : configuration :=
  { RefreshToken := "r", AccessToken := "old", ClientId := "id", ClientSecret := "secret",
    ExpiresAt := 500 }

/-- An authentication endpoint that grants the token `A` for 3600 seconds,
read at clock time 1000. -/
def grantingWorld : AuthWorld :=
  { newRequestFails := false
    transport := .response ⟨200, some []⟩
    decodeToken := fun _ t => { t with AccessToken := "A", ExpiresIn := 3600 }
    now := 1000 }

/-- An authentication endpoint that answers 401. -/
def rejectingWorld : AuthWorld :=
  { newRequestFails := false
    transport := .response ⟨401, some []⟩
    decodeToken := fun _ t => t
    now := 1000 }

/-! ## Lemmas on the pattern -/

theorem whitespace_rmatch_iff (x : List Byte) :
    whitespace.rmatch x ↔ ∃ b, isSpace b = true ∧ x = [b] := by
  simp only [whitespace, RegularExpression.add_rmatch_iff, RegularExpression.char_rmatch_iff]
  constructor
  · intro h
    rcases h with (((h | h) | h) | h) | h <;> subst h <;> exact ⟨_, by decide, rfl⟩
  · rintro ⟨b, hb, rfl⟩
    simp only [isSpace, Bool.or_eq_true, decide_eq_true_eq] at hb
    rcases hb with (((h | h) | h) | h) | h <;> subst h <;> simp

theorem star_whitespace_rmatch_iff (x : List Byte) :
    (RegularExpression.star whitespace).rmatch x ↔ ∀ b ∈ x, isSpace b = true := by
  rw [RegularExpression.star_rmatch_iff]
  constructor
  · rintro ⟨S, rfl, hS⟩
    intro b hb
    rw [List.mem_flatten] at hb
    obtain ⟨t, ht, hbt⟩ := hb
    obtain ⟨c, hc, rfl⟩ := (whitespace_rmatch_iff t).1 (hS t ht).2
    rw [List.mem_singleton] at hbt
    exact hbt ▸ hc
  · intro h
    refine ⟨x.map fun b => [b], ?_, ?_⟩
    · clear h
      induction x with
      | nil => rfl
      | cons a l ih => simp [List.flatten] at ih ⊢; exact ih
    · intro t ht
      rw [List.mem_map] at ht
      obtain ⟨b, hb, rfl⟩ := ht
      exact ⟨by simp, (whitespace_rmatch_iff [b]).2 ⟨b, h b hb, rfl⟩⟩

theorem emptyPattern_rmatch_iff (p : List Byte) :
    emptyPattern.rmatch p ↔
      ∃ ws, ws ≠ [] ∧ (∀ b ∈ ws, isSpace b = true) ∧ p = 123 :: ws ++ [125] := by
  simp only [emptyPattern, RegularExpression.mul_rmatch_iff, RegularExpression.char_rmatch_iff,
    whitespace_rmatch_iff, star_whitespace_rmatch_iff]
  constructor
  · rintro ⟨t, u, rfl, ⟨t1, t2, rfl, rfl, ⟨w1, w2, rfl, ⟨b, hb, rfl⟩, hw2⟩⟩, rfl⟩
    refine ⟨b :: w2, by simp, ?_, by simp⟩
    intro c hc
    rcases List.mem_cons.1 hc with rfl | hc
    · exact hb
    · exact hw2 c hc
  · rintro ⟨ws, hne, hws, rfl⟩
    cases ws with
    | nil => exact absurd rfl hne
    | cons b w2 =>
      refine ⟨123 :: b :: w2, [125], by simp, ⟨[123], b :: w2, by simp, rfl,
        ⟨[b], w2, by simp, ⟨b, hws b (List.mem_cons_self _ _), rfl⟩, ?_⟩⟩, rfl⟩
      intro c hc
      exact hws c (List.mem_cons_of_mem _ hc)

/-- The unanchored search finds the pattern exactly in the bodies that
contain `{`, one or more whitespace bytes and `}` in a row. -/
theorem regexpMatch_emptyPattern_iff (body : List Byte) :
    regexpMatch emptyPattern body = true ↔
      ∃ pre ws post, ws ≠ [] ∧ (∀ b ∈ ws, isSpace b = true) ∧
        body = pre ++ (123 :: ws ++ [125]) ++ post := by
  simp only [regexpMatch, List.any_eq_true, List.mem_tails, List.mem_inits]
  constructor
  · rintro ⟨t, ⟨pre, rfl⟩, p, ⟨post, rfl⟩, hp⟩
    obtain ⟨ws, hne, hws, rfl⟩ := (emptyPattern_rmatch_iff p).1 hp
    exact ⟨pre, ws, post, hne, hws, by simp⟩
  · rintro ⟨pre, ws, post, hne, hws, rfl⟩
    refine ⟨(123 :: ws ++ [125]) ++ post, ⟨pre, by simp⟩, 123 :: ws ++ [125], ⟨post, rfl⟩, ?_⟩
    exact (emptyPattern_rmatch_iff _).2 ⟨ws, hne, hws, rfl⟩

/-! ## Request executor: the claims -/

theorem bytesOf_expired_ne_nil : bytesOf "Access token has been expired" ≠ [] := by decide

theorem bytesOf_empty : bytesOf "" = [] := by decide

theorem brace_ne_expired (rest : List Byte) :
    (123 : Byte) :: rest ≠ bytesOf "Access token has been expired" := by
  intro h
  have h2 : (bytesOf "Access token has been expired").head? = some 65 := by decide
  rw [← h] at h2
  simp at h2

/-- C1: for every decoder, endpoint, output and response whose status is not
200, `requestTo` returns `ErrTransactionNotFound` itself when the status is
404 and `CannotGetData` otherwise, and leaves the output as it was; the body
plays no part. -/
theorem requestTo_status_not_ok {α : Type} (dec : List Byte → α → α × Bool)
    (endpoint : Endpoint) (output : Option α) (resp : Response)
    (h : resp.StatusCode ≠ 200) :
    (resp.StatusCode = 404 →
        requestTo dec endpoint output (.response resp) = (output, some ErrTransactionNotFound)) ∧
    (resp.StatusCode ≠ 404 →
        requestTo dec endpoint output (.response resp)
          = (output, some (.errorsNew "CannotGetData"))) ∧
    ErrTransactionNotFound ≠ .errorsNew "CannotGetData" := by
  refine ⟨fun h4 => ?_, fun h4 => ?_, by decide⟩
  · simp [requestTo, h, h4]
  · simp [requestTo, h, h4]

theorem requestTo_status_not_ok_witness :
    (404 : Int) ≠ 200 ∧
    requestTo acceptDec (NewEndpoint "validatePurchase")
        (some Purchase.zero) (.response ⟨404, some (bytesOf "Access token has been expired")⟩)
      = (some Purchase.zero, some ErrTransactionNotFound) ∧
    requestTo acceptDec (NewEndpoint "validatePurchase")
        (some Purchase.zero) (.response ⟨500, some (bytesOf "\x7b \x7d")⟩)
      = (some Purchase.zero, some (.errorsNew "CannotGetData")) :=
  ⟨by decide,
   (requestTo_status_not_ok _ _ _ ⟨404, some (bytesOf "Access token has been expired")⟩
      (by decide)).1 rfl,
   (requestTo_status_not_ok _ _ _ ⟨500, some (bytesOf "\x7b \x7d")⟩ (by decide)).2.1 (by decide)⟩

/-- C2: for every decoder, endpoint (so for each of the three routes) and
output, a status-200 response whose body is exactly
`Access token has been expired` makes `requestTo` return
`AccessTokenExpired`. -/
theorem requestTo_access_token_expired {α : Type} (dec : List Byte → α → α × Bool)
    (endpoint : Endpoint) (output : Option α) :
    requestTo dec endpoint output
        (.response ⟨200, some (bytesOf "Access token has been expired")⟩)
      = (output, some (.errorsNew "AccessTokenExpired")) := by
  simp [requestTo]

/-- C3: on the `cancelSubscription` route a status-200 response with an empty
body makes `requestTo` return no error, whatever the decoder would do with
the empty input (it is not consulted) and whatever the output;
`SubscriptionCancel` returns no error on that response. -/
theorem requestTo_cancel_empty_body :
    (∀ {α : Type} (dec : List Byte → α → α × Bool) (endpoint : Endpoint) (output : Option α),
        endpoint.Route = "cancelSubscription" →
        requestTo dec endpoint output (.response ⟨200, some []⟩) = (output, none)) ∧
    (∀ (c : Client) (packageName subscriptionId purchaseToken : String),
        c.SubscriptionCancel packageName subscriptionId purchaseToken
          (.response ⟨200, some []⟩) = none) := by
  have key : ∀ {α : Type} (dec : List Byte → α → α × Bool) (endpoint : Endpoint)
      (output : Option α), endpoint.Route = "cancelSubscription" →
      requestTo dec endpoint output (.response ⟨200, some []⟩) = (output, none) := by
    intro α dec endpoint output h
    simp [requestTo, h, bytesOf_empty, Ne.symm bytesOf_expired_ne_nil]
  refine ⟨key, ?_⟩
  intro c p s t
  show (requestTo _ _ _ _).2 = none
  rw [key _ _ _ rfl]

theorem requestTo_cancel_empty_body_witness :
    (NewEndpoint "cancelSubscription").Route = "cancelSubscription" ∧
    requestTo rejectDec (NewEndpoint "cancelSubscription") (some Subscription.zero)
        (.response ⟨200, some []⟩) = (some Subscription.zero, none) :=
  ⟨rfl, requestTo_cancel_empty_body.1 _ (NewEndpoint "cancelSubscription") _ rfl⟩

/-- C4: on every route other than `cancelSubscription`, a status-200 response
whose body is `{`, one or more whitespace bytes, `}` makes `requestTo`
return `CannotFindResource` with the output untouched, whatever the
decoder. -/
theorem requestTo_padded_empty_object {α : Type} (dec : List Byte → α → α × Bool)
    (endpoint : Endpoint) (output : Option α) (ws : List Byte)
    (hroute : endpoint.Route ≠ "cancelSubscription")
    (hne : ws ≠ []) (hws : ∀ b ∈ ws, isSpace b = true) :
    requestTo dec endpoint output (.response ⟨200, some (123 :: ws ++ [125])⟩)
      = (output, some (.errorsNew "CannotFindResource")) := by
  have hm : regexpMatch emptyPattern (123 :: ws ++ [125]) = true :=
    (regexpMatch_emptyPattern_iff _).2 ⟨[], ws, [], hne, hws, by simp⟩
  have hx : (123 : Byte) :: (ws ++ [125]) ≠ bytesOf "Access token has been expired" :=
    brace_ne_expired _
  simp only [List.cons_append] at hm
  simp [requestTo, hroute, hm, hx]

theorem requestTo_padded_empty_object_witness :
    (NewEndpoint "validatePurchase").Route ≠ "cancelSubscription" ∧
    bytesOf "\x7b \x7d" = 123 :: [32] ++ [125] ∧
    requestTo acceptDec (NewEndpoint "validatePurchase")
        (some Purchase.zero) (.response ⟨200, some (123 :: [32] ++ [125])⟩)
      = (some Purchase.zero, some (.errorsNew "CannotFindResource")) :=
  ⟨by decide, by decide,
   requestTo_padded_empty_object _ _ _ [32] (by decide) (by decide) (by decide)⟩

/-- Supporting fact for C5: what the code does. On a route other than
`cancelSubscription`, with status 200 and a body that is not the
expired-token sentinel, `requestTo` returns `CannotFindResource` exactly
when the body contains `{`, one or more whitespace bytes and `}` in a
row, anywhere. -/
theorem requestTo_cannotFindResource_iff {α : Type} (dec : List Byte → α → α × Bool)
    (endpoint : Endpoint) (output : Option α) (body : List Byte)
    (hroute : endpoint.Route ≠ "cancelSubscription")
    (hbody : body ≠ bytesOf "Access token has been expired") :
    (requestTo dec endpoint output (.response ⟨200, some body⟩)).2
        = some (.errorsNew "CannotFindResource") ↔
      ∃ pre ws post, ws ≠ [] ∧ (∀ b ∈ ws, isSpace b = true) ∧
        body = pre ++ (123 :: ws ++ [125]) ++ post := by
  rw [← regexpMatch_emptyPattern_iff]
  by_cases hm : regexpMatch emptyPattern body = true
  · simp [requestTo, hroute, hbody, hm]
  · simp only [requestTo, hroute, hbody, hm]
    cases h : (jsonUnmarshal dec body output).2 <;> simp [h]

/-- C5, evaluated on the code. The body `{}` is an empty JSON object, yet on
the `validatePurchase` route with status 200 `requestTo` never answers
`CannotFindResource` for it: the body goes to the decoder, and with a
decoder that accepts it the call returns no error. The body
`{"developerPayload":"{ }"}` is not an empty JSON object, yet `requestTo`
answers `CannotFindResource` for it without decoding. -/
theorem requestTo_empty_object_check_misses :
    (isEmptyObject (bytesOf "\x7b\x7d") = true ∧
      (∀ {α : Type} (dec : List Byte → α → α × Bool) (output : Option α),
        (requestTo dec (NewEndpoint "validatePurchase") output
            (.response ⟨200, some (bytesOf "\x7b\x7d")⟩)).2
          ≠ some (.errorsNew "CannotFindResource")) ∧
      requestTo acceptDec (NewEndpoint "validatePurchase") (some Purchase.zero)
          (.response ⟨200, some (bytesOf "\x7b\x7d")⟩) = (some Purchase.zero, none)) ∧
    (isEmptyObject payloadBody = false ∧
      ∀ {α : Type} (dec : List Byte → α → α × Bool) (output : Option α),
        requestTo dec (NewEndpoint "validatePurchase") output
            (.response ⟨200, some payloadBody⟩)
          = (output, some (.errorsNew "CannotFindResource"))) := by
  have h1 : regexpMatch emptyPattern (bytesOf "\x7b\x7d") = false := by decide
  have h2 : regexpMatch emptyPattern payloadBody = true := by decide
  have h3 : bytesOf "\x7b\x7d" ≠ bytesOf "Access token has been expired" := by decide
  have h4 : payloadBody ≠ bytesOf "Access token has been expired" := by decide
  have h5 : (NewEndpoint "validatePurchase").Route ≠ "cancelSubscription" := by decide
  refine ⟨⟨by decide, ?_, ?_⟩, by decide, ?_⟩
  · intro α dec output
    simp only [requestTo, h1, h3, h5]
    cases h : (jsonUnmarshal dec (bytesOf "\x7b\x7d") output).2 <;> simp [h]
  · simp [requestTo, h1, h3, h5, jsonUnmarshal, acceptDec]
  · intro α dec output
    simp [requestTo, h2, h4, h5]

/-- Supporting fact for C10: with a `nil` output, on the `cancelSubscription`
route, `requestTo` returns no error exactly on a status-200 response with an
empty body. -/
theorem requestTo_nil_output_no_error_iff {α : Type} (dec : List Byte → α → α × Bool)
    (endpoint : Endpoint) (net : Transport)
    (hroute : endpoint.Route = "cancelSubscription") :
    (requestTo dec endpoint none net).2 = none ↔ net = .response ⟨200, some []⟩ := by
  constructor
  · intro h
    cases net with
    | failed => simp [requestTo] at h
    | response resp =>
      obtain ⟨st, body⟩ := resp
      by_cases h200 : st = 200
      · subst h200
        cases body with
        | none => simp [requestTo] at h
        | some b =>
          by_cases hb : b = []
          · subst hb; rfl
          · simp only [requestTo, ne_eq, not_true_eq_false, if_false, bytesOf_empty, hb,
              and_false, jsonUnmarshal] at h
            split_ifs at h
      · simp only [requestTo, ne_eq, h200, not_false_eq_true, if_true] at h
        split_ifs at h
  · rintro rfl
    simp [requestTo, hroute, bytesOf_empty, Ne.symm bytesOf_expired_ne_nil]

theorem requestTo_nil_output_nonempty_body {α : Type} (dec : List Byte → α → α × Bool)
    (endpoint : Endpoint) (body : List Byte) (hne : body ≠ []) :
    (requestTo dec endpoint none (.response ⟨200, some body⟩)).2
      ∈ [some (GoError.errorsNew "AccessTokenExpired"),
         some (GoError.errorsNew "CannotFindResource"),
         some (GoError.errorsNew "Cannot parse JSON response")] := by
  simp only [requestTo, ne_eq, not_true_eq_false, if_false, bytesOf_empty, hne, and_false,
    jsonUnmarshal]
  split_ifs <;> simp

/-- C10: `SubscriptionCancel`, and `requestTo` with a `nil` output on the
`cancelSubscription` route, return no error only on a status-200 response
with an empty body; on a status-200 response with a non-empty body they
return `AccessTokenExpired`, `CannotFindResource` or the JSON-parse error,
whatever the decoder makes of the body. -/
theorem SubscriptionCancel_no_error_iff :
    (∀ {α : Type} (dec : List Byte → α → α × Bool) (endpoint : Endpoint) (net : Transport),
        endpoint.Route = "cancelSubscription" →
        ((requestTo dec endpoint none net).2 = none ↔ net = .response ⟨200, some []⟩)) ∧
    (∀ {α : Type} (dec : List Byte → α → α × Bool) (endpoint : Endpoint) (body : List Byte),
        body ≠ [] →
        (requestTo dec endpoint none (.response ⟨200, some body⟩)).2
          ∈ [some (GoError.errorsNew "AccessTokenExpired"),
             some (GoError.errorsNew "CannotFindResource"),
             some (GoError.errorsNew "Cannot parse JSON response")]) ∧
    (∀ (c : Client) (packageName subscriptionId purchaseToken : String) (net : Transport),
        (c.SubscriptionCancel packageName subscriptionId purchaseToken net = none ↔
          net = .response ⟨200, some []⟩)) ∧
    (∀ (c : Client) (packageName subscriptionId purchaseToken : String) (body : List Byte),
        body ≠ [] →
        c.SubscriptionCancel packageName subscriptionId purchaseToken
            (.response ⟨200, some body⟩)
          ∈ [some (GoError.errorsNew "AccessTokenExpired"),
             some (GoError.errorsNew "CannotFindResource"),
             some (GoError.errorsNew "Cannot parse JSON response")]) := by
  refine ⟨fun dec endpoint net h => requestTo_nil_output_no_error_iff dec endpoint net h,
    fun dec endpoint body h => requestTo_nil_output_nonempty_body dec endpoint body h, ?_, ?_⟩
  · intro c p s t net
    exact requestTo_nil_output_no_error_iff _ _ net rfl
  · intro c p s t body h
    exact requestTo_nil_output_nonempty_body _ _ body h

theorem SubscriptionCancel_no_error_iff_witness :
    bytesOf "\x7b\"ok\":true\x7d" ≠ [] ∧
    (⟨expiredConfig⟩ : Client).SubscriptionCancel "pkg" "sub" "tok"
        (.response ⟨200, some (bytesOf "\x7b\"ok\":true\x7d")⟩)
      ∈ [some (GoError.errorsNew "AccessTokenExpired"),
         some (GoError.errorsNew "CannotFindResource"),
         some (GoError.errorsNew "Cannot parse JSON response")] ∧
    (⟨expiredConfig⟩ : Client).SubscriptionCancel "pkg" "sub" "tok"
        (.response ⟨200, some (bytesOf "\x7b\"ok\":true\x7d")⟩)
      = some (.errorsNew "Cannot parse JSON response") :=
  ⟨by decide,
   SubscriptionCancel_no_error_iff.2.2.2 _ "pkg" "sub" "tok" _ (by decide),
   by decide⟩

/-! ## Token manager: the claims -/

theorem wrap64_add_sub (a b : Int) : wrap64 (wrap64 (a + b) - 10) = wrap64 (b + a - 10) := by
  unfold wrap64
  omega

theorem wrap64_of_range (x : Int) (hlo : -2 ^ 63 ≤ x) (hhi : x < 2 ^ 63) : wrap64 x = x := by
  unfold wrap64
  omega

/-- C6: when the request can be built, the authentication endpoint answers
200 and the decoded token has a non-empty access token `A` and lifetime `L`,
`RefreshToken` with clock reading `t` returns no error and stores `A` and
the expiry `t + L - 10`, computed in wrapping 64-bit arithmetic (so it is
exactly `t + L - 10` when that number is an `int64`); the client id, client
secret and refresh token stay as they were. -/
theorem RefreshToken_success (c : Client) (w : AuthWorld) (resp : Response)
    (hreq : w.newRequestFails = false) (htr : w.transport = .response resp)
    (hst : resp.StatusCode = 200)
    (htok : (w.decodeToken resp.Body token.zero).AccessToken ≠ "") :
    (c.RefreshToken w).err = none ∧
    (c.RefreshToken w).client.config.AccessToken
      = (w.decodeToken resp.Body token.zero).AccessToken ∧
    (c.RefreshToken w).client.config.ExpiresAt
      = wrap64 (w.now + (w.decodeToken resp.Body token.zero).ExpiresIn - 10) ∧
    (-2 ^ 63 ≤ w.now + (w.decodeToken resp.Body token.zero).ExpiresIn - 10 →
      w.now + (w.decodeToken resp.Body token.zero).ExpiresIn - 10 < 2 ^ 63 →
      (c.RefreshToken w).client.config.ExpiresAt
        = w.now + (w.decodeToken resp.Body token.zero).ExpiresIn - 10) ∧
    (c.RefreshToken w).client.config.ClientId = c.config.ClientId ∧
    (c.RefreshToken w).client.config.ClientSecret = c.config.ClientSecret ∧
    (c.RefreshToken w).client.config.RefreshToken = c.config.RefreshToken := by
  have hr : c.RefreshToken w =
      ⟨{ config := { c.config with
            AccessToken := (w.decodeToken resp.Body token.zero).AccessToken
            ExpiresAt := wrap64 (wrap64 ((w.decodeToken resp.Body token.zero).ExpiresIn + w.now)
              - 10) } },
        none,
        [.authPost [("grant_type", "refresh_token"), ("client_id", c.config.ClientId),
          ("client_secret", c.config.ClientSecret),
          ("refresh_token", c.config.RefreshToken)]]⟩ := by
    simp [Client.RefreshToken, hreq, htr, hst, htok]
  rw [hr]
  refine ⟨rfl, rfl, wrap64_add_sub _ _, fun hlo hhi => ?_, rfl, rfl, rfl⟩
  show wrap64 (wrap64 _ - 10) = _
  rw [wrap64_add_sub, wrap64_of_range _ hlo hhi]

theorem RefreshToken_success_witness :
    (⟨expiredConfig⟩ : Client).RefreshToken grantingWorld
      = ⟨⟨{ expiredConfig with AccessToken := "A", ExpiresAt := 4590 }⟩, none,
          [.authPost [("grant_type", "refresh_token"), ("client_id", "id"),
            ("client_secret", "secret"), ("refresh_token", "r")]]⟩ ∧
    ((⟨expiredConfig⟩ : Client).RefreshToken grantingWorld).client.config.ExpiresAt
      = 1000 + 3600 - 10 :=
  ⟨by decide,
   (RefreshToken_success ⟨expiredConfig⟩ grantingWorld ⟨200, some []⟩ rfl rfl rfl
      (by decide)).2.2.2.1 (by decide) (by decide)⟩

/-- C7: whenever `RefreshToken` returns an error, the error is one of
`CannotInitiateRequest`, `CannotSendRequest`, `InvalidCredentials`,
`CannotGetAccessToken`, and the client afterwards equals the client before
the call in every field of its credentials. -/
theorem RefreshToken_error_keeps_client (c : Client) (w : AuthWorld) (e : GoError)
    (h : (c.RefreshToken w).err = some e) :
    (c.RefreshToken w).client = c ∧
    e ∈ [GoError.errorsNew "CannotInitiateRequest", GoError.errorsNew "CannotSendRequest",
         GoError.errorsNew "InvalidCredentials", GoError.errorsNew "CannotGetAccessToken"] := by
  obtain ⟨nf, tr, decT, now⟩ := w
  cases nf with
  | true =>
    simp only [Client.RefreshToken, if_true, Option.some.injEq] at h ⊢
    subst h
    simp
  | false =>
    cases tr with
    | failed =>
      simp only [Client.RefreshToken, Bool.false_eq_true, if_false, Option.some.injEq] at h ⊢
      subst h
      simp
    | response resp =>
      simp only [Client.RefreshToken, Bool.false_eq_true, if_false] at h ⊢
      split_ifs at h ⊢ with h2 h3
      · simp only [Option.some.injEq] at h
        subst h
        simp
      · simp only [Option.some.injEq] at h
        subst h
        simp

theorem RefreshToken_error_keeps_client_witness :
    ((⟨expiredConfig⟩ : Client).RefreshToken rejectingWorld).err
      = some (.errorsNew "InvalidCredentials") ∧
    ((⟨expiredConfig⟩ : Client).RefreshToken rejectingWorld).client = ⟨expiredConfig⟩ :=
  ⟨by decide,
   (RefreshToken_error_keeps_client ⟨expiredConfig⟩ rejectingWorld
      (.errorsNew "InvalidCredentials") (by decide)).1⟩

/-- C8, the claim as written fails: with stored credentials that have no
access token and an expiry of 2000, at clock time 1000, the claim asks for a
refresh, and `NewClientFromFile` performs none: no effect at all, the
loaded credentials returned as they are, no error. -/
theorem NewClientFromFile_tokenless_not_refreshed :
    NewClientFromFile "config.json" tokenlessConfig 1000 grantingWorld none
      = ⟨⟨tokenlessConfig⟩, none, []⟩ ∧
    ¬ ((NewClientFromFile "config.json" tokenlessConfig 1000 grantingWorld none).effects ≠ [] ↔
        (1000 ≥ tokenlessConfig.ExpiresAt ∨ tokenlessConfig.AccessToken = "")) := by
  decide

/-- C8, amended: `NewClientFromFile` performs a refresh (and the rewrite of
the file that follows it) if and only if the clock reading is at or past the
stored expiry. Before the expiry it has no effect on the outside world and
returns the loaded credentials unchanged with no error; from the expiry on,
the client returned is the one `RefreshToken` leaves, and the effects are
those of `RefreshToken` followed by the rewrite of the file with the
credentials of that client. -/
theorem NewClientFromFile_refresh_iff_expired (path : String) (loaded : configuration)
    (now : Int) (w : AuthWorld) (writeErr : Option GoError) :
    ((NewClientFromFile path loaded now w writeErr).effects ≠ [] ↔ loaded.ExpiresAt ≤ now) ∧
    (now < loaded.ExpiresAt →
      NewClientFromFile path loaded now w writeErr = ⟨⟨loaded⟩, none, []⟩) ∧
    (loaded.ExpiresAt ≤ now →
      (NewClientFromFile path loaded now w writeErr).client
        = ((⟨loaded⟩ : Client).RefreshToken w).client ∧
      (NewClientFromFile path loaded now w writeErr).effects
        = ((⟨loaded⟩ : Client).RefreshToken w).effects
          ++ [.writeFile path ((⟨loaded⟩ : Client).RefreshToken w).client.config]) := by
  by_cases h : loaded.ExpiresAt > now
  · have hn : ¬ loaded.ExpiresAt ≤ now := by omega
    simp [NewClientFromFile, h, hn]
  · have hn : loaded.ExpiresAt ≤ now := by omega
    have hl : ¬ now < loaded.ExpiresAt := by omega
    simp [NewClientFromFile, hn, hl]

theorem NewClientFromFile_refresh_iff_expired_witness :
    (1000 : Int) < tokenlessConfig.ExpiresAt ∧
    NewClientFromFile "config.json" tokenlessConfig 1000 grantingWorld none
      = ⟨⟨tokenlessConfig⟩, none, []⟩ ∧
    expiredConfig.ExpiresAt ≤ (1000 : Int) ∧
    (NewClientFromFile "config.json" expiredConfig 1000 grantingWorld none).client
      = ((⟨expiredConfig⟩ : Client).RefreshToken grantingWorld).client :=
  ⟨by decide,
   (NewClientFromFile_refresh_iff_expired "config.json" tokenlessConfig 1000 grantingWorld
      none).2.1 (by decide),
   by decide,
   ((NewClientFromFile_refresh_iff_expired "config.json" expiredConfig 1000 grantingWorld
      none).2.2 (by decide)).1⟩

/-- C9, evaluated on the code: the stored credentials expired at 500, the
clock reads 1000, the authentication endpoint answers 401 and the rewrite
of the file succeeds. `RefreshToken` returns `InvalidCredentials`, and
`NewClientFromFile` returns no error: the result of `ioutil.WriteFile` has
replaced it. `NewClient`, on the same refusal, returns the error. -/
theorem NewClientFromFile_drops_refresh_error :
    ((⟨expiredConfig⟩ : Client).RefreshToken rejectingWorld).err
      = some (.errorsNew "InvalidCredentials") ∧
    expiredConfig.ExpiresAt ≤ (1000 : Int) ∧
    (NewClientFromFile "config.json" expiredConfig 1000 rejectingWorld none).err = none ∧
    (NewClientFromFile "config.json" expiredConfig 1000 rejectingWorld none).effects
      = [.authPost [("grant_type", "refresh_token"), ("client_id", "id"),
            ("client_secret", "secret"), ("refresh_token", "r")],
         .writeFile "config.json" expiredConfig] ∧
    (NewClient "id" "secret" "r" rejectingWorld).err
      = some (.errorsNew "InvalidCredentials") := by
  decide

end Inappbilling
